import Mathlib

/-!
Verification of the TaskSync remote session bridge
(`src/server/remoteUiServer.ts`) against its natural-language
specification.

The bridge is embedded shallowly:

* `SessionInfo` and the session registry operations mirror the
  `SessionInfo` interface and `_registerSession` / `_unregisterSession` /
  `_getAllSessions`, which store records in `context.globalState` under
  the key `tasksync.remoteSessions`.
* `BridgeState` collects the mutable fields of the `RemoteUiServer`
  class (`_pin`, `_sessionId`, `_port`, `_io`, `_server`,
  `_authenticatedSockets`, the two callback slots) together with the
  shared registry it manipulates.
* The Socket.IO event handlers installed by `_setupSocketIO`
  (`authenticate`, `message`, `disconnect`) and the public
  `broadcast` / `start` / `stop` methods become pure state transformers
  that also return the list of events emitted to sockets, tagged with
  the target socket id, and the list of messages forwarded to the
  state-owner callback.
* Randomness (`Math.random()`) is an explicit rational argument in
  `[0,1)`; the environment (snapshot values pulled from the state
  owner, replies issued through the `respond` closure) is explicit
  input to each step.
* Application payloads (`RemoteMessage`, the snapshot returned by the
  `_getStateCallback`) are opaque to the bridge, so they are type
  parameters `Msg` and `State`.

A trace semantics `run` executes a list of `BridgeInput`s and
accumulates the emitted events in order, which lets the
ordering/counting properties of the spec be stated about whole
executions.
-/

namespace TaskSync

/-- Session registry record, mirroring the `SessionInfo` interface
(fields `id`, `workspaceName`, `port`, `startTime`, `pin`). -/
structure SessionInfo where
  id : String
  workspaceName : String
  port : Nat
  startTime : Nat
  pin : String
deriving DecidableEq, Repr

/-- Source `_registerSession`: remove any record with this port, then push the
new record (`sessions.filter(s => s.port !== this._port); filtered.push(session)`). -/
def registerSession (sessions : List SessionInfo) (rec : SessionInfo) :
    List SessionInfo :=
  sessions.filter (fun s => s.port != rec.port) ++ [rec]

/-- Source `_unregisterSession`: remove the record with this session id
(`sessions.filter(s => s.id !== this._sessionId)`). -/
def unregisterSession (sessions : List SessionInfo) (sessionId : String) :
    List SessionInfo :=
  sessions.filter (fun s => s.id != sessionId)

/-- Source `_getAllSessions`: return the stored registry list as-is. -/
def getAllSessions (sessions : List SessionInfo) : List SessionInfo :=
  sessions

/-- One registry operation, for stating properties of arbitrary
register/unregister sequences. -/
inductive RegistryOp where
  | register (rec : SessionInfo)
  | unregister (id : String)
deriving DecidableEq, Repr

/-- Apply one registry operation. -/
def applyOp (sessions : List SessionInfo) : RegistryOp → List SessionInfo
  | .register rec => registerSession sessions rec
  | .unregister i => unregisterSession sessions i

/-- Run a sequence of registry operations from the empty registry. -/
def applyOps (ops : List RegistryOp) : List SessionInfo :=
  ops.foldl applyOp []

/-- JSON scalar values, enough to describe how Express `res.json`
serialises a `SessionInfo` record. -/
inductive JValue where
  | jstr (s : String)
  | jnum (n : Nat)
deriving DecidableEq, Repr

/-- JSON serialisation of one `SessionInfo` record: `res.json`
serialises every field of the interface, including `pin`. -/
def sessionToJson (s : SessionInfo) : List (String × JValue) :=
  [("id", .jstr s.id),
   ("workspaceName", .jstr s.workspaceName),
   ("port", .jnum s.port),
   ("startTime", .jnum s.startTime),
   ("pin", .jstr s.pin)]

/-- The `/api/sessions` route handler: `res.json(this._getAllSessions())`. -/
def apiSessionsResponse (registry : List SessionInfo) :
    List (List (String × JValue)) :=
  (getAllSessions registry).map sessionToJson

/-- Events the bridge emits to a socket: the `authenticated`
acknowledgment, the one-off `initialState` snapshot, relayed `message`
events, and the `error` notice. -/
inductive ServerEvent (Msg State : Type) where
  | authenticated (success : Bool) (error : Option String)
  | initialState (state : State)
  | message (m : Msg)
  | error (msg : String)
deriving DecidableEq

/-- Mutable state of one `RemoteUiServer` instance, plus the shared
session registry it reads and writes through `context.globalState`.
`ioActive` / `serverActive` model whether `_io` / `_server` are
non-null; `hasGetStateCallback` / `hasOnMessageCallback` model whether
`onGetState` / `onMessage` have installed their callbacks. -/
structure BridgeState where
  pin : String
  sessionId : String
  port : Nat
  ioActive : Bool
  serverActive : Bool
  authenticatedSockets : List String
  hasGetStateCallback : Bool
  hasOnMessageCallback : Bool
  registry : List SessionInfo
deriving DecidableEq, Repr

/-- JS `Set.add`: insert the socket id if it is not already present. -/
def addSocket (l : List String) (sid : String) : List String :=
  if sid ∈ l then l else l ++ [sid]

/-- The `authenticate` handler: on `data.pin === this._pin` add the
socket to `_authenticatedSockets`, emit `authenticated {success:true}`,
and, when the state callback is installed, emit `initialState` carrying
the snapshot the callback returns at this moment (`snap`); otherwise
emit `authenticated {success:false, error:'Invalid PIN'}` and change
nothing. -/
def handleAuthenticate {Msg State : Type} (s : BridgeState) (sid : String)
    (candidate : String) (snap : State) :
    BridgeState × List (String × ServerEvent Msg State) :=
  if candidate = s.pin then
    ({ s with authenticatedSockets := addSocket s.authenticatedSockets sid },
      (sid, .authenticated true none) ::
        (if s.hasGetStateCallback then [(sid, .initialState snap)] else []))
  else
    (s, [(sid, .authenticated false (some "Invalid PIN"))])

/-- The `message` handler: an unauthenticated socket gets an `error`
event and nothing is forwarded; an authenticated socket's message is
handed to `_onMessageCallback` (when installed) together with a
`respond` closure — `responses` lists the messages the state owner
sends back through that closure, each emitted as a `message` event to
the same socket.  The third component lists the messages forwarded to
the state-owner callback. -/
def handleMessage {Msg State : Type} (s : BridgeState) (sid : String)
    (m : Msg) (responses : List Msg) :
    BridgeState × List (String × ServerEvent Msg State) × List Msg :=
  if sid ∈ s.authenticatedSockets then
    if s.hasOnMessageCallback then
      (s, responses.map (fun r => (sid, .message r)), [m])
    else
      (s, [], [])
  else
    (s, [(sid, .error "Not authenticated")], [])

/-- The `disconnect` handler: `_authenticatedSockets.delete(socket.id)`. -/
def handleDisconnect (s : BridgeState) (sid : String) : BridgeState :=
  { s with authenticatedSockets :=
      s.authenticatedSockets.filter (fun x => x != sid) }

/-- Source `broadcast`: if `_io` is null do nothing, else emit a `message`
event to every socket id in `_authenticatedSockets`. -/
def broadcastEmits {Msg State : Type} (s : BridgeState) (m : Msg) :
    List (String × ServerEvent Msg State) :=
  if s.ioActive then
    s.authenticatedSockets.map (fun sid => (sid, .message m))
  else
    []

/-- Source `stop()`: unregister the session, close and null out `_io` and
`_server`, clear `_authenticatedSockets`.  Total — no failure path. -/
def stop (s : BridgeState) : BridgeState :=
  { s with
      registry := unregisterSession s.registry s.sessionId,
      ioActive := false,
      serverActive := false,
      authenticatedSockets := [] }

/-- JS `Math.floor` on a non-negative rational, written so that the
kernel can evaluate it on concrete inputs.  `ratFloorNat_eq_floor`
identifies it with `⌊·⌋₊`. -/
def ratFloorNat (r : ℚ) : Nat :=
  r.num.toNat / r.den

/-- Source `_generatePin` before `.toString()`:
`Math.floor(1000 + Math.random() * 9000)`, with `Math.random()`
modelled as a rational `q` in `[0,1)`. -/
def generatePinNat (q : ℚ) : Nat :=
  ratFloorNat ((1000 : ℚ) + q * 9000)

/-- Decimal rendering of a natural number, as JS
`Number.prototype.toString` produces for non-negative integers: most
significant digit first, no leading zeros, and `"0"` for zero. -/
def natToString (n : Nat) : String :=
  if n = 0 then "0"
  else String.mk (((Nat.digits 10 n).map Nat.digitChar).reverse)

/-- Source `_generatePin()`: the PIN string. -/
def generatePin (q : ℚ) : String :=
  natToString (generatePinNat q)

/-- The possible outputs of `_generatePin` over all values of
`Math.random()`. -/
def pinPossible (s : String) : Prop :=
  ∃ q : ℚ, 0 ≤ q ∧ q < 1 ∧ generatePin q = s

/-- The `RemoteUiServer` constructor: generate the PIN from one sample
`q` of `Math.random()`, take the session id (built from the clock and
another random sample) as given, leave the server stopped with no
authenticated sockets and no callbacks installed.  `registry` is the
shared `globalState` content at construction time. -/
def mkRemoteUiServer (q : ℚ) (sessionId : String)
    (registry : List SessionInfo) : BridgeState :=
  { pin := generatePin q,
    sessionId := sessionId,
    port := 0,
    ioActive := false,
    serverActive := false,
    authenticatedSockets := [],
    hasGetStateCallback := false,
    hasOnMessageCallback := false,
    registry := registry }

/-- The retry limit of `_findAvailablePort` (`maxAttempts = 100`). -/
def maxAttempts : Nat := 100

/-- The retry loop of `_findAvailablePort`: try `port`, on bind failure
move to `port + 1`, for at most `fuel` attempts.  `avail p = true`
means port `p` can be bound. -/
def findAvailablePortGo (avail : Nat → Bool) :
    Nat → Nat → Except String Nat
  | 0, _ => .error ("Could not find available port after "
      ++ toString maxAttempts ++ " attempts")
  | fuel + 1, port =>
      if avail port then .ok port
      else findAvailablePortGo avail fuel (port + 1)

/-- Source `_findAvailablePort(startPort)` with `maxAttempts = 100`. -/
def findAvailablePort (avail : Nat → Bool) (startPort : Nat) :
    Except String Nat :=
  findAvailablePortGo avail maxAttempts startPort

/-- JS `preferredPort || 3000`: `undefined` (none) and `0` are both falsy
in JS and fall back to 3000. -/
def defaultedPort (preferredPort : Option Nat) : Nat :=
  match preferredPort with
  | none => 3000
  | some p => if p = 0 then 3000 else p

/-- Source `start(preferredPort)`: allocate a port from the preferred one,
mark `_server` and `_io` live (`listen` + `_setupSocketIO`), and
register the session record built from the current workspace name and
clock (`_registerSession`).  Fails when the port allocator fails.
Returns the new state and the bound port. -/
def start (s : BridgeState) (preferredPort : Option Nat)
    (avail : Nat → Bool) (workspaceName : String) (now : Nat) :
    Except String (BridgeState × Nat) :=
  match findAvailablePort avail (defaultedPort preferredPort) with
  | .error e => .error e
  | .ok p =>
      let record : SessionInfo :=
        { id := s.sessionId, workspaceName := workspaceName, port := p,
          startTime := now, pin := s.pin }
      .ok ({ s with
              port := p,
              serverActive := true,
              ioActive := true,
              registry := registerSession s.registry record }, p)

/-- The PIN in effect after a successful `start()` call, `none` when
`start` failed. -/
def pinAfterStart (s : BridgeState) (preferredPort : Option Nat)
    (avail : Nat → Bool) (workspaceName : String) (now : Nat) :
    Option String :=
  match start s preferredPort avail workspaceName now with
  | .ok (s', _) => some s'.pin
  | .error _ => none

/-- One input to the running bridge.  `authenticate` carries the
snapshot the state-owner callback would return at that moment;
`message` carries the replies the state owner issues through the
`respond` closure while handling the forwarded message. -/
inductive BridgeInput (Msg State : Type) where
  | connect (sid : String)
  | authenticate (sid : String) (pin : String) (snap : State)
  | message (sid : String) (m : Msg) (responses : List Msg)
  | broadcast (m : Msg)
  | disconnect (sid : String)
deriving DecidableEq

/-- Result of executing inputs: final state, events emitted to sockets
in send order (tagged with the target socket id), and messages
forwarded to the state-owner callback in order. -/
structure RunResult (Msg State : Type) where
  state : BridgeState
  trace : List (String × ServerEvent Msg State)
  forwarded : List Msg
deriving DecidableEq

/-- Execute one input. -/
def step {Msg State : Type} (s : BridgeState) :
    BridgeInput Msg State → RunResult Msg State
  | .connect _ => ⟨s, [], []⟩
  | .authenticate sid c snap =>
      let r := @handleAuthenticate Msg State s sid c snap
      ⟨r.1, r.2, []⟩
  | .message sid m rs =>
      let r := handleMessage s sid m rs
      ⟨r.1, r.2.1, r.2.2⟩
  | .broadcast m => ⟨s, broadcastEmits s m, []⟩
  | .disconnect sid => ⟨handleDisconnect s sid, [], []⟩

/-- Execute a list of inputs, concatenating traces in order. -/
def run {Msg State : Type} (s : BridgeState) :
    List (BridgeInput Msg State) → RunResult Msg State
  | [] => ⟨s, [], []⟩
  | i :: is =>
      let r1 := step s i
      let r2 := run r1.state is
      ⟨r2.state, r1.trace ++ r2.trace, r1.forwarded ++ r2.forwarded⟩

/-- The events sent to one socket, in send order. -/
def eventsTo {Msg State : Type}
    (tr : List (String × ServerEvent Msg State)) (sid : String) :
    List (ServerEvent Msg State) :=
  (tr.filter (fun e => e.1 == sid)).map Prod.snd

/-- Recogniser for `initialState` events. -/
def isInitialState {Msg State : Type} : ServerEvent Msg State → Bool
  | .initialState _ => true
  | _ => false

/-- Recogniser for relayed `message` events. -/
def isMessageEvent {Msg State : Type} : ServerEvent Msg State → Bool
  | .message _ => true
  | _ => false

/-- True when no `message` event occurs before the first
`initialState` event of the list (scanning left to right; once an
`initialState` is seen the rest is unconstrained). -/
def msgOnlyAfterInit {Msg State : Type} :
    List (ServerEvent Msg State) → Bool
  | [] => true
  | e :: rest =>
      if isInitialState e then true
      else if isMessageEvent e then false
      else msgOnlyAfterInit rest

/-- The snapshots carried by the successful authentication attempts of
socket `sid` (candidate equal to `pin`), in order. -/
def succAuthSnaps {Msg State : Type} (pin sid : String)
    (inputs : List (BridgeInput Msg State)) : List State :=
  inputs.filterMap (fun i =>
    match i with
    | .authenticate s c snap =>
        if s = sid ∧ c = pin then some snap else none
    | _ => none)

/-- True when `inputs` contains no successful authentication attempt by
socket `sid` against secret `pin`. -/
def noSuccessfulAuth {Msg State : Type} (pin sid : String)
    (inputs : List (BridgeInput Msg State)) : Bool :=
  inputs.all (fun i =>
    match i with
    | .authenticate s c _ => !(s == sid && c == pin)
    | _ => true)

/-! ### Session registry: port uniqueness (C3) -/

lemma registerSession_port_nodup (sessions : List SessionInfo)
    (r : SessionInfo) (h : (sessions.map SessionInfo.port).Nodup) :
    ((registerSession sessions r).map SessionInfo.port).Nodup := by
  unfold registerSession
  rw [List.map_append]
  apply List.Nodup.append
  · exact List.Nodup.sublist
      (List.Sublist.map SessionInfo.port (List.filter_sublist sessions)) h
  · exact List.nodup_singleton _
  · intro a ha hb
    simp only [List.map_cons, List.map_nil, List.mem_singleton] at hb
    subst hb
    rcases List.mem_map.mp ha with ⟨s, hs, hps⟩
    have := (List.mem_filter.mp hs).2
    simp only [bne_iff_ne, ne_eq] at this
    exact this hps

lemma unregisterSession_port_nodup (sessions : List SessionInfo)
    (i : String) (h : (sessions.map SessionInfo.port).Nodup) :
    ((unregisterSession sessions i).map SessionInfo.port).Nodup :=
  List.Nodup.sublist
    (List.Sublist.map SessionInfo.port (List.filter_sublist sessions)) h

lemma applyOp_port_nodup (sessions : List SessionInfo) (op : RegistryOp)
    (h : (sessions.map SessionInfo.port).Nodup) :
    ((applyOp sessions op).map SessionInfo.port).Nodup := by
  cases op with
  | register r => exact registerSession_port_nodup sessions r h
  | unregister i => exact unregisterSession_port_nodup sessions i h

lemma foldl_applyOp_port_nodup (ops : List RegistryOp) :
    ∀ acc : List SessionInfo, (acc.map SessionInfo.port).Nodup →
      ((ops.foldl applyOp acc).map SessionInfo.port).Nodup := by
  induction ops with
  | nil => intro acc h; exact h
  | cons op ops ih =>
      intro acc h
      rw [List.foldl_cons]
      exact ih _ (applyOp_port_nodup acc op h)

/-- C3: for every finite sequence of register/unregister operations on
the Session Registry (register filters out any existing record with
the same port before appending; unregister filters out the record with
the given id), the resulting list of Session Records never contains
two records with the same port. -/
theorem registry_port_unique (ops : List RegistryOp) :
    ((applyOps ops).map SessionInfo.port).Nodup :=
  foldl_applyOp_port_nodup ops [] (by simp)

/-! ### HTTP session listing (C10) -/

/-- C10: the `/api/sessions` endpoint returns every registered record
verbatim (`res.json(this._getAllSessions())` on the unfiltered registry
list), and the serialised form of each record carries the `pin` field —
the collective listing does not strip the secret before responding. -/
theorem api_sessions_exposes_pin (registry : List SessionInfo) :
    apiSessionsResponse registry = registry.map sessionToJson
      ∧ ∀ r : SessionInfo, ("pin", JValue.jstr r.pin) ∈ sessionToJson r := by
  constructor
  · rfl
  · intro r
    simp [sessionToJson]

/-! ### `stop()` idempotence (C8) -/

/-- C8: `stop()` is a total function of the state (no failure path, so
it is safe on a bridge that was never started), calling it twice in a
row yields the same state as calling it once, and after a `stop()` the
Session Registry holds no record whose id is this bridge's session id. -/
theorem stop_idempotent_and_unregisters (s : BridgeState) :
    stop (stop s) = stop s
      ∧ ((stop s).registry.all (fun r => r.id != s.sessionId)) = true := by
  constructor
  · cases s with
    | mk pin sessionId port ioA srvA auth hGS hOM registry =>
        simp only [stop, unregisterSession]
        congr 1
        apply List.filter_eq_self.mpr
        intro a ha
        exact (List.mem_filter.mp ha).2
  · rw [List.all_eq_true]
    intro r hr
    exact (List.mem_filter.mp hr).2

/-! ### Port allocator (C9) -/

lemma findAvailablePortGo_ok (avail : Nat → Bool) :
    ∀ (fuel port p : Nat), findAvailablePortGo avail fuel port = .ok p →
      avail p = true ∧ port ≤ p ∧ p < port + fuel
        ∧ ∀ q, port ≤ q → q < p → avail q = false := by
  intro fuel
  induction fuel with
  | zero => intro port p h; simp [findAvailablePortGo] at h
  | succ fuel ih =>
      intro port p h
      unfold findAvailablePortGo at h
      by_cases ha : avail port
      · rw [if_pos ha] at h
        cases h
        refine ⟨ha, Nat.le_refl _, by omega, ?_⟩
        intro q h1 h2
        omega
      · rw [if_neg ha] at h
        rcases ih (port + 1) p h with ⟨h1, h2, h3, h4⟩
        refine ⟨h1, by omega, by omega, ?_⟩
        intro q hq1 hq2
        rcases Nat.eq_or_lt_of_le hq1 with hq | hq
        · rw [hq] at ha
          exact Bool.eq_false_iff.mpr ha
        · exact h4 q hq hq2

lemma findAvailablePortGo_error (avail : Nat → Bool) :
    ∀ (fuel port : Nat), (∀ i, i < fuel → avail (port + i) = false) →
      findAvailablePortGo avail fuel port
        = .error ("Could not find available port after "
            ++ toString maxAttempts ++ " attempts") := by
  intro fuel
  induction fuel with
  | zero => intro port _; rfl
  | succ fuel ih =>
      intro port h
      unfold findAvailablePortGo
      have h0 : avail port = false := by
        have := h 0 (Nat.succ_pos fuel)
        simpa using this
      rw [if_neg (by simp [h0])]
      apply ih
      intro i hi
      have := h (i + 1) (by omega)
      simpa [Nat.add_assoc, Nat.add_comm 1 i] using this

/-- C9: `_findAvailablePort`, given a preferred port, returns the first
port greater than or equal to the preferred port (scanning forward one
port at a time) that can be bound, and fails with the
no-port-available error after exactly 100 consecutive failed attempts
(`maxAttempts = 100`). -/
theorem find_available_port_first_fit (avail : Nat → Bool)
    (startPort : Nat) :
    (∀ p, findAvailablePort avail startPort = .ok p →
        avail p = true ∧ startPort ≤ p ∧ p < startPort + 100
          ∧ ∀ q, startPort ≤ q → q < p → avail q = false)
      ∧ ((∀ i, i < 100 → avail (startPort + i) = false) →
          findAvailablePort avail startPort
            = .error "Could not find available port after 100 attempts") := by
  constructor
  · intro p h
    exact findAvailablePortGo_ok avail maxAttempts startPort p h
  · intro h
    exact findAvailablePortGo_error avail maxAttempts startPort h

/-- Witness for C9: with only port 3002 bindable the allocator returns
3002 (the first fit above 3000); with no port bindable it fails with
the no-port-available error. -/
theorem find_available_port_first_fit_witness :
    ((fun p => p == 3002) 3002 = true ∧ 3000 ≤ 3002 ∧ 3002 < 3000 + 100
        ∧ ∀ q, 3000 ≤ q → q < 3002 → (fun p => p == 3002) q = false)
      ∧ findAvailablePort (fun _ => false) 3000
          = .error "Could not find available port after 100 attempts" :=
  ⟨(find_available_port_first_fit (fun p => p == 3002) 3000).1 3002 rfl,
   (find_available_port_first_fit (fun _ => false) 3000).2 (fun _ _ => rfl)⟩

/-! ### PIN validation (C5) -/

lemma addSocket_mem_self (l : List String) (sid : String) :
    sid ∈ addSocket l sid := by
  unfold addSocket
  split
  · assumption
  · exact List.mem_append_right _ (List.mem_singleton.mpr rfl)

/-- C5: the `authenticate` handler takes the success branch iff the
candidate string exactly equals the current secret; on mismatch it
emits `authenticated {success:false, error:'Invalid PIN'}` to that
socket only and returns the state unchanged (so the socket's
authenticated flag stays false and, the handler having no
close/disconnect action, the connection stays open), and a retry with
the correct PIN over the same connection then succeeds. -/
theorem pin_validation_exact_match {Msg State : Type} (s : BridgeState)
    (sid candidate : String) (snap : State) :
    ((sid, ServerEvent.authenticated true none)
        ∈ (@handleAuthenticate Msg State s sid candidate snap).2
      ↔ candidate = s.pin)
    ∧ (candidate ≠ s.pin →
        @handleAuthenticate Msg State s sid candidate snap
          = (s, [(sid, .authenticated false (some "Invalid PIN"))]))
    ∧ (candidate ≠ s.pin →
        sid ∈ (@handleAuthenticate Msg State
            (@handleAuthenticate Msg State s sid candidate snap).1
            sid s.pin snap).1.authenticatedSockets) := by
  by_cases h : candidate = s.pin
  · refine ⟨⟨fun _ => h, fun _ => ?_⟩, fun hc => absurd h hc, fun hc => absurd h hc⟩
    simp [handleAuthenticate, h]
  · refine ⟨⟨fun hm => ?_, fun hc => absurd hc h⟩, fun _ => ?_, fun _ => ?_⟩
    · simp [handleAuthenticate, h] at hm
    · simp [handleAuthenticate, h]
    · simp only [handleAuthenticate, if_neg h, if_pos rfl]
      exact addSocket_mem_self _ _

/-- Witness for C5: with secret `"1234"`, the candidate `"0000"` is
rejected with an `Invalid PIN` acknowledgment and an unchanged state,
and retrying with `"1234"` on the same connection authenticates. -/
theorem pin_validation_exact_match_witness :
    (@handleAuthenticate Nat Nat
        ⟨"1234", "sess", 3000, true, true, [], true, true, []⟩ "a" "0000" 7
      = (⟨"1234", "sess", 3000, true, true, [], true, true, []⟩,
          [("a", .authenticated false (some "Invalid PIN"))]))
    ∧ "a" ∈ (@handleAuthenticate Nat Nat
          (@handleAuthenticate Nat Nat
            ⟨"1234", "sess", 3000, true, true, [], true, true, []⟩
            "a" "0000" 7).1 "a" "1234" 7).1.authenticatedSockets :=
  ⟨(pin_validation_exact_match
      ⟨"1234", "sess", 3000, true, true, [], true, true, []⟩
      "a" "0000" 7).2.1 (by decide),
   (pin_validation_exact_match
      ⟨"1234", "sess", 3000, true, true, [], true, true, []⟩
      "a" "0000" 7).2.2 (by decide)⟩

/-! ### Inbound relay authentication gate (C4) -/

/-- C4: a `message` event from a socket outside the authenticated set
makes the bridge emit a `Not authenticated` error event back to that
socket only, forward nothing to the state-owner callback and leave the
state unchanged (no forwarding, no broadcast); a `message` event from
an authenticated socket (with the state-owner callback installed) is
forwarded verbatim to the callback, the only emissions being the
replies the state owner itself issues through `respond`. -/
theorem message_relay_gate {Msg State : Type} (s : BridgeState)
    (sid : String) (m : Msg) (responses : List Msg) :
    (sid ∉ s.authenticatedSockets →
        @handleMessage Msg State s sid m responses
          = (s, [(sid, .error "Not authenticated")], []))
    ∧ (sid ∈ s.authenticatedSockets → s.hasOnMessageCallback = true →
        @handleMessage Msg State s sid m responses
          = (s, responses.map (fun r => (sid, .message r)), [m])) := by
  constructor
  · intro h
    simp [handleMessage, h]
  · intro h hc
    simp [handleMessage, h, hc]

/-- Witness for C4: socket `"b"` (unauthenticated) gets the error
notice and nothing is forwarded; socket `"a"` (authenticated) has its
message forwarded verbatim. -/
theorem message_relay_gate_witness :
    (@handleMessage Nat Nat
        ⟨"1234", "sess", 3000, true, true, ["a"], true, true, []⟩ "b" 9 []
      = (⟨"1234", "sess", 3000, true, true, ["a"], true, true, []⟩,
          [("b", .error "Not authenticated")], []))
    ∧ (@handleMessage Nat Nat
        ⟨"1234", "sess", 3000, true, true, ["a"], true, true, []⟩ "a" 9 [4]
      = (⟨"1234", "sess", 3000, true, true, ["a"], true, true, []⟩,
          [("a", .message 4)], [9])) :=
  ⟨(message_relay_gate
      ⟨"1234", "sess", 3000, true, true, ["a"], true, true, []⟩
      "b" 9 []).1 (by decide),
   (message_relay_gate
      ⟨"1234", "sess", 3000, true, true, ["a"], true, true, []⟩
      "a" 9 [4]).2 (by decide) rfl⟩

/-! ### Trace lemmas shared by the broadcast and snapshot claims -/

lemma eventsTo_append {Msg State : Type}
    (a b : List (String × ServerEvent Msg State)) (sid : String) :
    eventsTo (a ++ b) sid = eventsTo a sid ++ eventsTo b sid := by
  simp [eventsTo, List.filter_append]

lemma eventsTo_cons_self {Msg State : Type}
    (e : ServerEvent Msg State) (tr : List (String × ServerEvent Msg State))
    (sid : String) :
    eventsTo ((sid, e) :: tr) sid = e :: eventsTo tr sid := by
  simp [eventsTo]

lemma eventsTo_cons_ne {Msg State : Type} {tid sid : String}
    (e : ServerEvent Msg State) (tr : List (String × ServerEvent Msg State))
    (h : tid ≠ sid) :
    eventsTo ((tid, e) :: tr) sid = eventsTo tr sid := by
  simp [eventsTo, h]

lemma eventsTo_eq_nil {Msg State : Type}
    {tr : List (String × ServerEvent Msg State)} {sid : String}
    (h : ∀ e ∈ tr, e.1 ≠ sid) :
    eventsTo tr sid = [] := by
  unfold eventsTo
  rw [List.filter_eq_nil_iff.mpr]
  · rfl
  · intro e he
    simpa using h e he

lemma mem_addSocket {l : List String} {sid x : String} :
    x ∈ addSocket l sid ↔ x ∈ l ∨ x = sid := by
  unfold addSocket
  split
  · rename_i hmem
    constructor
    · exact fun h => Or.inl h
    · rintro (h | rfl)
      · exact h
      · exact hmem
  · simp

lemma handleMessage_state {Msg State : Type} (s : BridgeState)
    (sid : String) (m : Msg) (rs : List Msg) :
    (@handleMessage Msg State s sid m rs).1 = s := by
  unfold handleMessage
  split
  · split <;> rfl
  · rfl

lemma step_state_pin {Msg State : Type} (s : BridgeState)
    (i : BridgeInput Msg State) :
    (step s i).state.pin = s.pin := by
  cases i with
  | connect _ => rfl
  | authenticate sid c snap =>
      show (@handleAuthenticate Msg State s sid c snap).1.pin = s.pin
      unfold handleAuthenticate
      split <;> rfl
  | message sid m rs =>
      show (@handleMessage Msg State s sid m rs).1.pin = s.pin
      rw [handleMessage_state]
  | broadcast _ => rfl
  | disconnect _ => rfl

lemma step_state_hasGS {Msg State : Type} (s : BridgeState)
    (i : BridgeInput Msg State) :
    (step s i).state.hasGetStateCallback = s.hasGetStateCallback := by
  cases i with
  | connect _ => rfl
  | authenticate sid c snap =>
      show (@handleAuthenticate Msg State s sid c snap).1.hasGetStateCallback
        = s.hasGetStateCallback
      unfold handleAuthenticate
      split <;> rfl
  | message sid m rs =>
      show (@handleMessage Msg State s sid m rs).1.hasGetStateCallback
        = s.hasGetStateCallback
      rw [handleMessage_state]
  | broadcast _ => rfl
  | disconnect _ => rfl

lemma step_not_mem_auth {Msg State : Type} (s : BridgeState)
    (i : BridgeInput Msg State) (sid : String)
    (hmem : sid ∉ s.authenticatedSockets)
    (hna : ∀ t c snap, i = BridgeInput.authenticate t c snap →
      t = sid → c ≠ s.pin) :
    sid ∉ (step s i).state.authenticatedSockets := by
  cases i with
  | connect _ => exact hmem
  | authenticate tid c snap =>
      show sid ∉ (@handleAuthenticate Msg State s tid c snap).1.authenticatedSockets
      unfold handleAuthenticate
      split
      · rename_i hc
        intro hin
        rcases mem_addSocket.mp hin with h | h2
        · exact hmem h
        · exact hna tid c snap rfl h2.symm hc
      · exact hmem
  | message tid m rs =>
      show sid ∉ (@handleMessage Msg State s tid m rs).1.authenticatedSockets
      rw [handleMessage_state]
      exact hmem
  | broadcast _ => exact hmem
  | disconnect tid =>
      intro hin
      exact hmem (List.mem_filter.mp hin).1

lemma step_no_msg_to_unauthed {Msg State : Type} (s : BridgeState)
    (i : BridgeInput Msg State) (sid : String)
    (hmem : sid ∉ s.authenticatedSockets) :
    ((eventsTo (step s i).trace sid).filter isMessageEvent) = [] := by
  cases i with
  | connect _ => rfl
  | authenticate tid c snap =>
      show ((eventsTo (@handleAuthenticate Msg State s tid c snap).2 sid).filter
        isMessageEvent) = []
      unfold handleAuthenticate
      split
      · by_cases htid : tid = sid
        · subst htid
          rw [eventsTo_cons_self]
          split
          · rw [eventsTo_cons_self, eventsTo_eq_nil (by intro e he; cases he)]
            rfl
          · rw [eventsTo_eq_nil (by intro e he; cases he)]
            rfl
        · rw [eventsTo_eq_nil]
          · rfl
          · intro e he
            rcases List.mem_cons.mp he with rfl | he'
            · exact htid
            · split at he'
              · rcases List.mem_singleton.mp he' with rfl
                exact htid
              · cases he'
      · by_cases htid : tid = sid
        · subst htid
          rw [eventsTo_cons_self, eventsTo_eq_nil (by intro e he; cases he)]
          rfl
        · rw [eventsTo_eq_nil]
          · rfl
          · intro e he
            rcases List.mem_singleton.mp he with rfl
            exact htid
  | message tid m rs =>
      show ((eventsTo (@handleMessage Msg State s tid m rs).2.1 sid).filter
        isMessageEvent) = []
      unfold handleMessage
      split
      · rename_i htid
        have hne : tid ≠ sid := fun h => hmem (h ▸ htid)
        split
        · rw [eventsTo_eq_nil]
          · rfl
          · intro e he
            rcases List.mem_map.mp he with ⟨r, _, rfl⟩
            exact hne
        · rfl
      · by_cases htid : tid = sid
        · subst htid
          rw [eventsTo_cons_self, eventsTo_eq_nil (by intro e he; cases he)]
          rfl
        · rw [eventsTo_eq_nil]
          · rfl
          · intro e he
            rcases List.mem_singleton.mp he with rfl
            exact htid
  | broadcast m =>
      show ((eventsTo (@broadcastEmits Msg State s m) sid).filter
        isMessageEvent) = []
      unfold broadcastEmits
      split
      · rw [eventsTo_eq_nil]
        · rfl
        · intro e he
          rcases List.mem_map.mp he with ⟨x, hx, rfl⟩
          exact fun h => hmem (h ▸ hx)
      · rfl
  | disconnect _ => rfl

lemma run_no_message_events {Msg State : Type} (sid : String) :
    ∀ (inputs : List (BridgeInput Msg State)) (s : BridgeState),
      noSuccessfulAuth s.pin sid inputs = true →
      sid ∉ s.authenticatedSockets →
      ((eventsTo (run s inputs).trace sid).filter isMessageEvent) = [] := by
  intro inputs
  induction inputs with
  | nil => intro s _ _; rfl
  | cons i is ih =>
      intro s hna hmem
      have hna' := hna
      rw [noSuccessfulAuth, List.all_cons, Bool.and_eq_true] at hna'
      rcases hna' with ⟨h1, h2⟩
      have hstep : ∀ t c snap, i = BridgeInput.authenticate t c snap →
          t = sid → c ≠ s.pin := by
        intro t c snap hi heq hpin
        rw [hi] at h1
        rw [heq, hpin] at h1
        simp at h1
      show ((eventsTo ((step s i).trace ++ (run (step s i).state is).trace)
        sid).filter isMessageEvent) = []
      rw [eventsTo_append, List.filter_append,
        step_no_msg_to_unauthed s i sid hmem, List.nil_append]
      apply ih
      · rw [noSuccessfulAuth]
        rw [step_state_pin]
        exact h2
      · exact step_not_mem_auth s i sid hmem hstep

/-! ### Outbound broadcast (C2) -/

/-- C2: `broadcast(m)` emits a `message` event for socket `sid` iff
`sid` is currently in the authenticated set (and to no other socket),
and over any whole execution a socket that never authenticates
successfully receives zero `message` events, no matter how many
`broadcast()` calls (or relays to other sockets) occur meanwhile. -/
theorem broadcast_only_to_authenticated {Msg State : Type}
    (s : BridgeState) (m : Msg) (sid : String)
    (inputs : List (BridgeInput Msg State)) :
    (s.ioActive = true →
        ((sid, ServerEvent.message m) ∈ @broadcastEmits Msg State s m
          ↔ sid ∈ s.authenticatedSockets))
    ∧ (noSuccessfulAuth s.pin sid inputs = true →
        sid ∉ s.authenticatedSockets →
        ((eventsTo (run s inputs).trace sid).filter isMessageEvent) = []) := by
  constructor
  · intro hio
    unfold broadcastEmits
    rw [if_pos hio]
    constructor
    · intro h
      rcases List.mem_map.mp h with ⟨x, hx, he⟩
      cases he
      exact hx
    · intro h
      exact List.mem_map.mpr ⟨sid, h, rfl⟩
  · exact fun h1 h2 => run_no_message_events sid inputs s h1 h2

/-- Witness for C2: with `"a"` authenticated, a broadcast reaches
`"a"`; socket `"b"`, which only ever tries the wrong PIN, receives no
`message` event across a run containing two broadcasts. -/
theorem broadcast_only_to_authenticated_witness :
    (("a", ServerEvent.message 5) ∈ @broadcastEmits Nat Nat
        ⟨"1234", "sess", 3000, true, true, ["a"], true, true, []⟩ 5
      ↔ "a" ∈ ["a"])
    ∧ ((eventsTo (run
          (⟨"1234", "sess", 3000, true, true, ["a"], true, true, []⟩ :
            BridgeState)
          [BridgeInput.broadcast 5,
           BridgeInput.authenticate "b" "0000" (7 : Nat),
           BridgeInput.broadcast 6]).trace "b").filter isMessageEvent) = [] :=
  ⟨(broadcast_only_to_authenticated
      ⟨"1234", "sess", 3000, true, true, ["a"], true, true, []⟩
      5 "a" []).1 rfl,
   (broadcast_only_to_authenticated
      ⟨"1234", "sess", 3000, true, true, ["a"], true, true, []⟩
      (5 : Nat) "b"
      [BridgeInput.broadcast 5,
       BridgeInput.authenticate "b" "0000" (7 : Nat),
       BridgeInput.broadcast 6]).2 (by decide) (by decide)⟩

/-! ### Snapshot delivery on authentication (C1) -/

lemma succAuthSnaps_cons {Msg State : Type} (pin sid : String)
    (i : BridgeInput Msg State) (is : List (BridgeInput Msg State)) :
    succAuthSnaps pin sid (i :: is)
      = succAuthSnaps pin sid [i] ++ succAuthSnaps pin sid is := by
  show succAuthSnaps pin sid ([i] ++ is) = _
  unfold succAuthSnaps
  rw [List.filterMap_append]

lemma handleAuthenticate_trace_success {Msg State : Type} (s : BridgeState)
    (tid c : String) (snap : State) (hpin : c = s.pin)
    (hGS : s.hasGetStateCallback = true) :
    (@handleAuthenticate Msg State s tid c snap).2
      = [(tid, .authenticated true none), (tid, .initialState snap)] := by
  unfold handleAuthenticate
  rw [if_pos hpin]
  show (tid, ServerEvent.authenticated true none) ::
      (if s.hasGetStateCallback then [(tid, ServerEvent.initialState snap)]
        else []) = _
  rw [hGS]
  simp

lemma handleAuthenticate_eq_failure {Msg State : Type} (s : BridgeState)
    (tid c : String) (snap : State) (hpin : c ≠ s.pin) :
    @handleAuthenticate Msg State s tid c snap
      = (s, [(tid, .authenticated false (some "Invalid PIN"))]) := by
  unfold handleAuthenticate
  rw [if_neg hpin]

lemma handleAuthenticate_state_success {Msg State : Type} (s : BridgeState)
    (tid c : String) (snap : State) (hpin : c = s.pin) :
    (@handleAuthenticate Msg State s tid c snap).1
      = { s with authenticatedSockets := addSocket s.authenticatedSockets tid } := by
  unfold handleAuthenticate
  rw [if_pos hpin]

lemma handleAuthenticate_trace_targets {Msg State : Type} (s : BridgeState)
    (tid c : String) (snap : State) :
    ∀ e ∈ (@handleAuthenticate Msg State s tid c snap).2, e.1 = tid := by
  intro e he
  unfold handleAuthenticate at he
  split at he
  · rcases List.mem_cons.mp he with rfl | he'
    · rfl
    · split at he'
      · rcases List.mem_singleton.mp he' with rfl
        rfl
      · cases he'
  · rcases List.mem_singleton.mp he with rfl
    rfl

lemma handleMessage_not_auth {Msg State : Type} (s : BridgeState)
    (sid : String) (m : Msg) (rs : List Msg)
    (h : sid ∉ s.authenticatedSockets) :
    @handleMessage Msg State s sid m rs
      = (s, [(sid, .error "Not authenticated")], []) := by
  unfold handleMessage
  rw [if_neg h]

lemma handleMessage_trace_targets {Msg State : Type} (s : BridgeState)
    (tid : String) (m : Msg) (rs : List Msg) :
    ∀ e ∈ (@handleMessage Msg State s tid m rs).2.1, e.1 = tid := by
  intro e he
  unfold handleMessage at he
  split at he
  · split at he
    · rcases List.mem_map.mp he with ⟨r, _, rfl⟩
      rfl
    · cases he
  · rcases List.mem_singleton.mp he with rfl
    rfl

lemma broadcastEmits_targets {Msg State : Type} (s : BridgeState) (m : Msg) :
    ∀ e ∈ @broadcastEmits Msg State s m, e.1 ∈ s.authenticatedSockets := by
  intro e he
  unfold broadcastEmits at he
  split at he
  · rcases List.mem_map.mp he with ⟨x, hx, rfl⟩
    exact hx
  · cases he

lemma eventsTo_handleAuthenticate_ne {Msg State : Type} (s : BridgeState)
    (tid c : String) (snap : State) (sid : String) (h : tid ≠ sid) :
    eventsTo (@handleAuthenticate Msg State s tid c snap).2 sid = [] :=
  eventsTo_eq_nil (fun e he => by
    rw [handleAuthenticate_trace_targets s tid c snap e he]; exact h)

lemma eventsTo_handleMessage_ne {Msg State : Type} (s : BridgeState)
    (tid : String) (m : Msg) (rs : List Msg) (sid : String) (h : tid ≠ sid) :
    eventsTo (@handleMessage Msg State s tid m rs).2.1 sid = [] :=
  eventsTo_eq_nil (fun e he => by
    rw [handleMessage_trace_targets s tid m rs e he]; exact h)

lemma eventsTo_broadcastEmits_unauthed {Msg State : Type} (s : BridgeState)
    (m : Msg) (sid : String) (h : sid ∉ s.authenticatedSockets) :
    eventsTo (@broadcastEmits Msg State s m) sid = [] :=
  eventsTo_eq_nil (fun e he => fun heq =>
    h (heq ▸ broadcastEmits_targets s m e he))

lemma eventsTo_sub {Msg State : Type}
    {tr : List (String × ServerEvent Msg State)} {sid : String}
    {e : ServerEvent Msg State} (h : e ∈ eventsTo tr sid) :
    ∃ p ∈ tr, p.2 = e := by
  unfold eventsTo at h
  rcases List.mem_map.mp h with ⟨p, hp, rfl⟩
  exact ⟨p, List.mem_of_mem_filter hp, rfl⟩

lemma handleMessage_no_init {Msg State : Type} (s : BridgeState)
    (tid : String) (m : Msg) (rs : List Msg) :
    ∀ p ∈ (@handleMessage Msg State s tid m rs).2.1,
      isInitialState p.2 = false := by
  intro p hp
  unfold handleMessage at hp
  split at hp
  · split at hp
    · rcases List.mem_map.mp hp with ⟨r, _, rfl⟩
      rfl
    · cases hp
  · rcases List.mem_singleton.mp hp with rfl
    rfl

lemma broadcastEmits_no_init {Msg State : Type} (s : BridgeState) (m : Msg) :
    ∀ p ∈ @broadcastEmits Msg State s m, isInitialState p.2 = false := by
  intro p hp
  unfold broadcastEmits at hp
  split at hp
  · rcases List.mem_map.mp hp with ⟨x, _, rfl⟩
    rfl
  · cases hp

lemma step_initial_states {Msg State : Type} (s : BridgeState)
    (i : BridgeInput Msg State) (sid : String)
    (hGS : s.hasGetStateCallback = true) :
    ((eventsTo (step s i).trace sid).filter isInitialState)
      = (succAuthSnaps s.pin sid [i]).map ServerEvent.initialState := by
  cases i with
  | connect _ => rfl
  | authenticate tid c snap =>
      show ((eventsTo (@handleAuthenticate Msg State s tid c snap).2 sid).filter
          isInitialState)
        = (succAuthSnaps s.pin sid [BridgeInput.authenticate tid c snap]).map
            ServerEvent.initialState
      by_cases htid : tid = sid
      · subst htid
        by_cases hpin : c = s.pin
        · simp [handleAuthenticate, hpin, hGS, eventsTo_cons_self,
            succAuthSnaps, isInitialState, eventsTo]
        · simp [handleAuthenticate, hpin, eventsTo_cons_self,
            succAuthSnaps, isInitialState, eventsTo]
      · rw [eventsTo_handleAuthenticate_ne s tid c snap sid htid]
        simp [succAuthSnaps, htid]
  | message tid m rs =>
      show ((eventsTo (@handleMessage Msg State s tid m rs).2.1 sid).filter
          isInitialState)
        = (succAuthSnaps s.pin sid [BridgeInput.message tid m rs]).map
            ServerEvent.initialState
      have hnil : ((eventsTo (@handleMessage Msg State s tid m rs).2.1
          sid).filter isInitialState) = [] := by
        apply List.filter_eq_nil_iff.mpr
        intro e he
        rcases eventsTo_sub he with ⟨p, hp, rfl⟩
        rw [handleMessage_no_init s tid m rs p hp]
        simp
      rw [hnil]
      rfl
  | broadcast m =>
      show ((eventsTo (@broadcastEmits Msg State s m) sid).filter
          isInitialState)
        = (succAuthSnaps s.pin sid [BridgeInput.broadcast m]).map
            ServerEvent.initialState
      have hnil : ((eventsTo (@broadcastEmits Msg State s m) sid).filter
          isInitialState) = [] := by
        apply List.filter_eq_nil_iff.mpr
        intro e he
        rcases eventsTo_sub he with ⟨p, hp, rfl⟩
        rw [broadcastEmits_no_init s m p hp]
        simp
      rw [hnil]
      rfl
  | disconnect _ => rfl

lemma run_initial_states {Msg State : Type} (sid : String) :
    ∀ (inputs : List (BridgeInput Msg State)) (s : BridgeState),
      s.hasGetStateCallback = true →
      ((eventsTo (run s inputs).trace sid).filter isInitialState)
        = (succAuthSnaps s.pin sid inputs).map ServerEvent.initialState := by
  intro inputs
  induction inputs with
  | nil => intro s _; rfl
  | cons i is ih =>
      intro s hGS
      show ((eventsTo ((step s i).trace ++ (run (step s i).state is).trace)
          sid).filter isInitialState)
        = (succAuthSnaps s.pin sid (i :: is)).map ServerEvent.initialState
      rw [eventsTo_append, List.filter_append, succAuthSnaps_cons,
        List.map_append, step_initial_states s i sid hGS]
      congr 1
      have := ih (step s i).state (by rw [step_state_hasGS]; exact hGS)
      rw [step_state_pin] at this
      exact this

lemma msgOnlyAfterInit_cons_neutral {Msg State : Type}
    (e : ServerEvent Msg State) (l : List (ServerEvent Msg State))
    (h1 : isInitialState e = false) (h2 : isMessageEvent e = false) :
    msgOnlyAfterInit (e :: l) = msgOnlyAfterInit l := by
  show (if isInitialState e then true
    else if isMessageEvent e then false else msgOnlyAfterInit l)
    = msgOnlyAfterInit l
  rw [if_neg (by simp [h1]), if_neg (by simp [h2])]

lemma msgOnlyAfterInit_neutral_append {Msg State : Type}
    (l1 l2 : List (ServerEvent Msg State))
    (h : ∀ e ∈ l1, isInitialState e = false ∧ isMessageEvent e = false) :
    msgOnlyAfterInit (l1 ++ l2) = msgOnlyAfterInit l2 := by
  induction l1 with
  | nil => rfl
  | cons e l1 ih =>
      rcases h e (List.mem_cons_self e l1) with ⟨h1, h2⟩
      rw [List.cons_append, msgOnlyAfterInit_cons_neutral _ _ h1 h2]
      exact ih (fun e he => h e (List.mem_cons_of_mem _ he))

lemma run_msg_after_init {Msg State : Type} (sid : String) :
    ∀ (inputs : List (BridgeInput Msg State)) (s : BridgeState),
      s.hasGetStateCallback = true →
      sid ∉ s.authenticatedSockets →
      msgOnlyAfterInit (eventsTo (run s inputs).trace sid) = true := by
  intro inputs
  induction inputs with
  | nil => intro s _ _; rfl
  | cons i is ih =>
      intro s hGS hmem
      show msgOnlyAfterInit (eventsTo
        ((step s i).trace ++ (run (step s i).state is).trace) sid) = true
      rw [eventsTo_append]
      cases i with
      | connect tid =>
          rw [show (step s (BridgeInput.connect tid) :
              RunResult Msg State).trace = [] from rfl]
          rw [show eventsTo ([] : List (String × ServerEvent Msg State)) sid
            = [] from rfl, List.nil_append]
          exact ih s hGS hmem
      | authenticate tid c snap =>
          show msgOnlyAfterInit
            (eventsTo (@handleAuthenticate Msg State s tid c snap).2 sid
              ++ eventsTo (run (@handleAuthenticate Msg State
                  s tid c snap).1 is).trace sid) = true
          by_cases htid : tid = sid
          · by_cases hpin : c = s.pin
            · rw [handleAuthenticate_trace_success s tid c snap hpin hGS, htid,
                eventsTo_cons_self, eventsTo_cons_self,
                eventsTo_eq_nil (by intro e he; cases he)]
              rw [List.cons_append]
              show (if isInitialState
                  (ServerEvent.authenticated true none : ServerEvent Msg State)
                then true
                else if isMessageEvent
                    (ServerEvent.authenticated true none : ServerEvent Msg State)
                  then false
                  else msgOnlyAfterInit
                    ((ServerEvent.initialState snap :: []) ++ _)) = true
              rw [if_neg (by simp [isInitialState]),
                if_neg (by simp [isMessageEvent])]
              rw [List.cons_append]
              show (if isInitialState
                  (ServerEvent.initialState snap : ServerEvent Msg State)
                then true else _) = true
              rw [if_pos (by simp [isInitialState])]
            · rw [handleAuthenticate_eq_failure s tid c snap hpin, htid]
              rw [eventsTo_cons_self,
                eventsTo_eq_nil (by intro e he; cases he), List.cons_append,
                List.nil_append,
                msgOnlyAfterInit_cons_neutral
                  (ServerEvent.authenticated false (some "Invalid PIN")) _
                  rfl rfl]
              exact ih s hGS hmem
          · rw [eventsTo_handleAuthenticate_ne s tid c snap sid htid,
              List.nil_append]
            have hna : ∀ t c' snap',
                (BridgeInput.authenticate tid c snap :
                    BridgeInput Msg State) = BridgeInput.authenticate t c' snap' →
                t = sid → c' ≠ s.pin := by
              intro t c' snap' hi heq
              cases hi
              exact absurd heq htid
            have := step_not_mem_auth s
              (BridgeInput.authenticate tid c snap) sid hmem hna
            apply ih
            · rw [(by rfl : (@handleAuthenticate Msg State s tid c snap).1
                = (step s (BridgeInput.authenticate tid c snap)).state),
                step_state_hasGS]
              exact hGS
            · exact this
      | message tid m rs =>
          show msgOnlyAfterInit
            (eventsTo (@handleMessage Msg State s tid m rs).2.1 sid
              ++ eventsTo (run (@handleMessage Msg State
                  s tid m rs).1 is).trace sid) = true
          rw [handleMessage_state]
          by_cases htid : tid = sid
          · rw [htid, handleMessage_not_auth s sid m rs hmem]
            rw [eventsTo_cons_self,
              eventsTo_eq_nil (by intro e he; cases he), List.cons_append,
              List.nil_append,
              msgOnlyAfterInit_cons_neutral
                (ServerEvent.error "Not authenticated") _ rfl rfl]
            exact ih s hGS hmem
          · rw [eventsTo_handleMessage_ne s tid m rs sid htid,
              List.nil_append]
            exact ih s hGS hmem
      | broadcast m =>
          show msgOnlyAfterInit
            (eventsTo (@broadcastEmits Msg State s m) sid
              ++ eventsTo (run s is).trace sid) = true
          rw [eventsTo_broadcastEmits_unauthed s m sid hmem, List.nil_append]
          exact ih s hGS hmem
      | disconnect tid =>
          rw [show (step s (BridgeInput.disconnect tid) :
              RunResult Msg State).trace = [] from rfl]
          rw [show eventsTo ([] : List (String × ServerEvent Msg State)) sid
            = [] from rfl, List.nil_append]
          apply ih
          · rw [step_state_hasGS]
            exact hGS
          · exact step_not_mem_auth s (BridgeInput.disconnect tid) sid hmem
              (by intro t c snap hi; cases hi)

/-- C1: over any whole execution starting with the state-owner snapshot
callback installed and the socket not yet authenticated, the
`initialState` events sent to a socket are exactly one per successful
`authenticate` event from that socket (so a single successful
authentication yields exactly one `initialState`, sent point-to-point
to that socket only), each carrying precisely the snapshot the
state-owner callback returned at that moment; and no `message` relay
event reaches that socket before the first `initialState` does. -/
theorem authenticated_snapshot_delivery {Msg State : Type}
    (s : BridgeState) (sid : String)
    (inputs : List (BridgeInput Msg State))
    (hGS : s.hasGetStateCallback = true)
    (hmem : sid ∉ s.authenticatedSockets) :
    ((eventsTo (run s inputs).trace sid).filter isInitialState)
        = (succAuthSnaps s.pin sid inputs).map ServerEvent.initialState
      ∧ msgOnlyAfterInit (eventsTo (run s inputs).trace sid) = true :=
  ⟨run_initial_states sid inputs s hGS,
   run_msg_after_init sid inputs s hGS hmem⟩

/-- Witness for C1: socket `"a"` authenticates once with the correct
PIN while snapshot `7` is current, then a broadcast arrives: `"a"`
receives exactly one `initialState`, carrying `7`, and it precedes the
relayed `message`. -/
theorem authenticated_snapshot_delivery_witness :
    (((eventsTo (run
          (⟨"1234", "sess", 3000, true, true, [], true, true, []⟩ :
            BridgeState)
          [BridgeInput.authenticate "a" "1234" (7 : Nat),
           BridgeInput.broadcast (5 : Nat)]).trace "a").filter isInitialState)
        = [ServerEvent.initialState 7]
      ∧ msgOnlyAfterInit (eventsTo (run
          (⟨"1234", "sess", 3000, true, true, [], true, true, []⟩ :
            BridgeState)
          [BridgeInput.authenticate "a" "1234" (7 : Nat),
           BridgeInput.broadcast (5 : Nat)]).trace "a") = true) :=
  authenticated_snapshot_delivery
    ⟨"1234", "sess", 3000, true, true, [], true, true, []⟩ "a"
    [BridgeInput.authenticate "a" "1234" (7 : Nat),
     BridgeInput.broadcast (5 : Nat)] rfl (by decide)

/-! ### PIN generation (C7) -/

lemma ratFloorNat_eq_floor (r : ℚ) (h : 0 ≤ r) : ratFloorNat r = ⌊r⌋₊ := by
  have hnum : 0 ≤ r.num := Rat.num_nonneg.mpr h
  rw [← Int.floor_toNat, Rat.floor_def]
  unfold ratFloorNat
  conv_rhs => rw [← Int.toNat_of_nonneg hnum, ← Int.natCast_div,
    Int.toNat_natCast]

lemma generatePinNat_bounds (q : ℚ) (h0 : 0 ≤ q) (h1 : q < 1) :
    1000 ≤ generatePinNat q ∧ generatePinNat q ≤ 9999 := by
  have hq : (0 : ℚ) ≤ q * 9000 := mul_nonneg h0 (by norm_num)
  have hr : (0 : ℚ) ≤ 1000 + q * 9000 := by linarith
  unfold generatePinNat
  rw [ratFloorNat_eq_floor _ hr]
  constructor
  · apply Nat.le_floor
    push_cast
    linarith
  · have hlt : (1000 + q * 9000 : ℚ) < 10000 := by nlinarith
    have h4 : ⌊(1000 + q * 9000 : ℚ)⌋₊ < 10000 :=
      (Nat.floor_lt hr).mpr (by push_cast; linarith)
    omega

lemma generatePinNat_exact (n : Nat) (h1 : 1000 ≤ n) (_h2 : n ≤ 9999) :
    generatePinNat (((n : ℚ) - 1000) / 9000) = n := by
  have hq : (1000 : ℚ) + (((n : ℚ) - 1000) / 9000) * 9000 = (n : ℚ) := by
    field_simp
  unfold generatePinNat
  rw [hq, ratFloorNat_eq_floor _ (by positivity), Nat.floor_natCast]

lemma digitChar_eq_zero {d : Nat} (h : d < 10)
    (hc : Nat.digitChar d = '0') : d = 0 := by
  interval_cases d
  · rfl
  all_goals exact absurd hc (by decide)

lemma ofDigits_all_zero (L : List ℕ) (h : ∀ d ∈ L, d = 0) :
    Nat.ofDigits 10 L = 0 := by
  induction L with
  | nil => rfl
  | cons d L ih =>
      rw [Nat.ofDigits_cons, h d (List.mem_cons_self d L),
        ih (fun x hx => h x (List.mem_cons_of_mem _ hx))]

lemma natToString_ne_padded (n : Nat) (hn : 1000 ≤ n) :
    natToString n ≠ "0000" := by
  intro he
  have hn0 : n ≠ 0 := by omega
  unfold natToString at he
  rw [if_neg hn0] at he
  have hdata : ((Nat.digits 10 n).map Nat.digitChar).reverse = "0000".data :=
    congrArg String.data he
  have hzeros : ∀ d ∈ Nat.digits 10 n, d = 0 := by
    intro d hd
    have hc : Nat.digitChar d
        ∈ ((Nat.digits 10 n).map Nat.digitChar).reverse :=
      List.mem_reverse.mpr (List.mem_map_of_mem _ hd)
    rw [hdata] at hc
    have hc' : Nat.digitChar d = '0' := by
      have h4 : "0000".data = ['0', '0', '0', '0'] := rfl
      rw [h4] at hc
      simp only [List.mem_cons, List.not_mem_nil, or_false] at hc
      rcases hc with h | h | h | h <;> exact h
    exact digitChar_eq_zero (Nat.digits_lt_base (by norm_num) hd) hc'
  have hofd := Nat.ofDigits_digits 10 n
  rw [ofDigits_all_zero _ hzeros] at hofd
  omega

lemma natToString_length (n : Nat) (h1 : 1000 ≤ n) (h2 : n ≤ 9999) :
    (natToString n).length = 4 := by
  have hn0 : n ≠ 0 := by omega
  unfold natToString
  rw [if_neg hn0]
  show (((Nat.digits 10 n).map Nat.digitChar).reverse).length = 4
  rw [List.length_reverse, List.length_map,
    Nat.digits_len 10 n (by norm_num) hn0]
  have hlog : Nat.log 10 n = 3 := by
    apply Nat.log_eq_of_pow_le_of_lt_pow
    · norm_num
      omega
    · norm_num
      omega
  omega

/-- C7 counterexample: `"0000"` is not a possible output of
`_generatePin` — `Math.floor(1000 + Math.random() * 9000)` never
produces a value below 1000, so PINs with leading zeros cannot occur,
contradicting the claim that every 4-digit string with leading zeros
permitted is a possible output. -/
theorem pin_no_leading_zero : ¬ pinPossible "0000" := by
  rintro ⟨q, h0, h1, he⟩
  have hb := generatePinNat_bounds q h0 h1
  unfold generatePin at he
  exact natToString_ne_padded (generatePinNat q) hb.1 he

/-- C7 (amended): the generated secret is the decimal string of a
number sampled from 1000–9999 (`Math.floor(1000 + Math.random()*9000)`,
uniform over those 9000 values), so it always has exactly 4 digits and
its leading digit is never zero; conversely every value in 1000–9999
is attainable by some value of `Math.random()`. -/
theorem pin_format (q : ℚ) (n : Nat) (h0 : 0 ≤ q) (h1 : q < 1)
    (hn1 : 1000 ≤ n) (hn2 : n ≤ 9999) :
    (1000 ≤ generatePinNat q ∧ generatePinNat q ≤ 9999
      ∧ generatePin q = natToString (generatePinNat q)
      ∧ (generatePin q).length = 4)
    ∧ pinPossible (natToString n) := by
  rcases generatePinNat_bounds q h0 h1 with ⟨hb1, hb2⟩
  refine ⟨⟨hb1, hb2, rfl, natToString_length _ hb1 hb2⟩, ?_⟩
  refine ⟨((n : ℚ) - 1000) / 9000, ?_, ?_, ?_⟩
  · apply div_nonneg _ (by norm_num)
    have : (1000 : ℚ) ≤ (n : ℚ) := by exact_mod_cast hn1
    linarith
  · rw [div_lt_one (by norm_num)]
    have : (n : ℚ) < 10000 := by exact_mod_cast Nat.lt_succ_of_le hn2
    linarith
  · unfold generatePin
    rw [generatePinNat_exact n hn1 hn2]

/-- Witness for C7 (amended): at `Math.random() = 0` the PIN is
`"1000"` (4 characters, no leading zero), and `1000` itself is an
attainable PIN value. -/
theorem pin_format_witness :
    (1000 ≤ generatePinNat 0 ∧ generatePinNat 0 ≤ 9999
      ∧ generatePin 0 = natToString (generatePinNat 0)
      ∧ (generatePin 0).length = 4)
    ∧ pinPossible (natToString 1000) :=
  pin_format 0 1000 (le_refl 0) (by decide) (by decide) (by decide)

/-! ### Secret lifetime across `start()` (C6) -/

/-- C6 counterexample: on a bridge instance whose current secret is
`"1234"`, a successful `start()` call leaves the secret equal to
`"1234"` — the secret in effect after the call is the same as before,
not a freshly sampled one, because `_generatePin` is invoked only in
the constructor and `start()` never touches `_pin`. -/
theorem start_keeps_pin :
    pinAfterStart
        ⟨"1234", "sess", 0, false, false, [], false, false, []⟩
        (some 3000) (fun _ => true) "ws" 0
      = some "1234"
    ∧ (⟨"1234", "sess", 0, false, false, [], false, false, []⟩ :
        BridgeState).pin = "1234" :=
  ⟨rfl, rfl⟩

/-- C6 (amended): the secret is sampled freshly in the constructor,
once per bridge instance, and `start()` never regenerates it: after
every successful `start()` the secret equals the secret before the
call (so a stop/start cycle on one instance keeps the same PIN, and a
new secret appears only when a new instance is constructed, e.g. on
host restart).  The registered session record does copy the current
secret into the shared registry. -/
theorem pin_fixed_at_construction (s : BridgeState) (pp : Option Nat)
    (avail : Nat → Bool) (ws : String) (now : Nat) (q : ℚ)
    (sessionId : String) (registry : List SessionInfo) :
    (∀ s' p, start s pp avail ws now = .ok (s', p) → s'.pin = s.pin)
    ∧ (mkRemoteUiServer q sessionId registry).pin = generatePin q := by
  constructor
  · intro s' p h
    unfold start at h
    cases hf : findAvailablePort avail (defaultedPort pp) with
    | error e =>
        rw [hf] at h
        cases h
    | ok port =>
        rw [hf] at h
        cases h
        rfl
  · rfl

/-- Witness for C6 (amended): a concrete successful `start()` keeps the
secret `"1234"`, and a freshly constructed bridge carries the PIN
generated from its random sample. -/
theorem pin_fixed_at_construction_witness :
    ((⟨"1234", "sess", 3000, true, true, [], false, false,
        [⟨"sess", "ws", 3000, 0, "1234"⟩]⟩ : BridgeState).pin
      = (⟨"1234", "sess", 0, false, false, [], false, false, []⟩ :
          BridgeState).pin)
    ∧ (mkRemoteUiServer 0 "sess2" []).pin = generatePin 0 :=
  ⟨(pin_fixed_at_construction
      ⟨"1234", "sess", 0, false, false, [], false, false, []⟩
      (some 3000) (fun _ => true) "ws" 0 0 "sess2" []).1
      ⟨"1234", "sess", 3000, true, true, [], false, false,
        [⟨"sess", "ws", 3000, 0, "1234"⟩]⟩ 3000 rfl,
   (pin_fixed_at_construction
      ⟨"1234", "sess", 0, false, false, [], false, false, []⟩
      (some 3000) (fun _ => true) "ws" 0 0 "sess2" []).2⟩

end TaskSync
